import Mathlib

/-!
Shallow embedding of the crop-recommendation engine of the
Indian-Farmer-Crop-Recommendation-System repository, together with proofs
about the claims of its specification.

Real numbers of the Python source (floats) are modelled as rationals;
Python dictionaries keyed by strings are modelled as association lists;
the global crop catalog is passed explicitly as a list.
-/

namespace AgriCrop

/-- Embeds the `CropInfo` dataclass of `src/crops/models.py` (the fields that
feed the scoring and filtering computations). -/
structure CropInfo where
  crop_id : String
  common_name : String
  duration_days : Int
  temp_min : ℚ
  temp_optimal_min : ℚ
  temp_optimal_max : ℚ
  temp_max : ℚ
  water_requirement_mm : Int
  drought_tolerance : String
  waterlogging_tolerance : String
  soil_ph_min : ℚ
  soil_ph_max : ℚ
  suitable_soil_textures : List String
  regional_suitability : List (String × ℚ)
  successful_regions : List String
  seasons : List String
deriving DecidableEq

/-- Embeds the `SoilInfo` dataclass of `src/soil/models.py`. -/
structure SoilInfo where
  texture : String
  ph : ℚ
  organic_matter : String
  drainage : Option String
deriving DecidableEq

/-- Embeds `calculate_ph_score` of `src/soil/models.py`: 100 inside the inner
band obtained by shrinking the pH range by 20 percent from each end, 70 inside
the full acceptable range, else 0. -/
def calculate_ph_score (crop : CropInfo) (ph : ℚ) : ℚ :=
  if crop.soil_ph_min + (crop.soil_ph_max - crop.soil_ph_min) * (2 / 10) ≤ ph ∧
      ph ≤ crop.soil_ph_max - (crop.soil_ph_max - crop.soil_ph_min) * (2 / 10) then 100
  else if crop.soil_ph_min ≤ ph ∧ ph ≤ crop.soil_ph_max then 70
  else 0

/-- Splits a texture string on the dash character, embedding Python's
`texture.split('-')` as used by `is_related_texture`. -/
def split_dash_aux : List Char → List Char → List String
  | [], acc => [String.mk acc.reverse]
  | c :: rest, acc =>
      if c = '-' then String.mk acc.reverse :: split_dash_aux rest []
      else split_dash_aux rest (c :: acc)

/-- Python `s.split('-')` for the texture strings of this code base. -/
def split_dash (s : String) : List String :=
  split_dash_aux s.toList []

/-- Embeds `is_related_texture` of `src/soil/models.py`: two textures are
related when their dash-separated component sets overlap. -/
def is_related_texture (texture : String) (suitable_textures : List String) : Bool :=
  suitable_textures.any fun s =>
    (split_dash texture).any fun p => (split_dash s).contains p

/-- Embeds `calculate_texture_bonus` of `src/soil/models.py`:
+20 for an exact match, 0 for a related texture, -50 otherwise. -/
def calculate_texture_bonus (crop : CropInfo) (texture : String) : ℚ :=
  if crop.suitable_soil_textures.contains texture then 20
  else if is_related_texture texture crop.suitable_soil_textures then 0
  else -50

/-- Embeds `calculate_drainage_bonus` of `src/soil/models.py`. -/
def calculate_drainage_bonus (crop : CropInfo) (soil : SoilInfo) : ℚ :=
  match soil.drainage with
  | none => 5
  | some d =>
      let drainage_value : ℕ :=
        if d = "Poor" then 1 else if d = "Medium" then 2 else if d = "Good" then 3 else 2
      if crop.waterlogging_tolerance = "High" then
        (if drainage_value = 1 then 10 else if drainage_value = 2 then 8 else 5)
      else if crop.waterlogging_tolerance = "Moderate" then
        (if drainage_value = 2 then 10 else 5)
      else
        (if drainage_value = 3 then 10 else if drainage_value = 2 then 5 else 0)

/-- Embeds `calculate_soil_compatibility_score` of `src/soil/models.py`:
pH score plus texture bonus plus drainage bonus, capped at 100 (no lower cap
appears in the source). -/
def calculate_soil_compatibility_score (crop : CropInfo) (soil : SoilInfo) : ℚ :=
  min (calculate_ph_score crop soil.ph + calculate_texture_bonus crop soil.texture
        + calculate_drainage_bonus crop soil) 100

/-- Embeds `CropDatabase.filter_by_soil` of `src/crops/crop_db.py` with an
explicit `min_score` argument: keeps the crops whose compatibility score is at
least `min_score`. -/
def filter_by_soil (crops : List CropInfo) (soil : SoilInfo) (min_score : ℚ) : List CropInfo :=
  crops.filter fun crop => decide (min_score ≤ calculate_soil_compatibility_score crop soil)

/-- `CropDatabase.filter_by_soil` called without an explicit `min_score`
argument; the source declares the default `min_score: float = 50.0`. -/
def filter_by_soil_default (crops : List CropInfo) (soil : SoilInfo) : List CropInfo :=
  filter_by_soil crops soil 50

/-- Embeds `detect_season` of `src/utils/seasons.py`; the date is given by its
month and day fields, and the optional region identifier is accepted exactly as
in the source (it is never read). -/
def detect_season (month day : ℕ) (region_id : Option String) : String :=
  if (month = 6 ∧ 1 ≤ day) ∨ (6 < month ∧ month < 10) ∨ (month = 10 ∧ day ≤ 31) then "Kharif"
  else if (month = 11 ∧ 1 ≤ day) ∨ month = 12 ∨ month ≤ 2 ∨ (month = 3 ∧ day ≤ 31) then "Rabi"
  else if month = 4 ∨ month = 5 then "Zaid"
  else "Kharif"

/-- Holds exactly when control in `detect_season` would reach the final
`else` branch, the logged fallback to Kharif for unexpected dates. -/
def SeasonFallback (month day : ℕ) : Prop :=
  ¬ ((month = 6 ∧ 1 ≤ day) ∨ (6 < month ∧ month < 10) ∨ (month = 10 ∧ day ≤ 31)) ∧
  ¬ ((month = 11 ∧ 1 ≤ day) ∨ month = 12 ∨ month ≤ 2 ∨ (month = 3 ∧ day ≤ 31)) ∧
  ¬ (month = 4 ∨ month = 5)

/-- Days of each month of the Gregorian calendar. -/
def daysInMonth (leap : Bool) (m : ℕ) : ℕ :=
  if m = 2 then (if leap then 29 else 28)
  else if m = 4 ∨ m = 6 ∨ m = 9 ∨ m = 11 then 30
  else 31

/-- A valid calendar date of a leap or non-leap year, given by month and day. -/
def ValidDate (leap : Bool) (m d : ℕ) : Prop :=
  1 ≤ m ∧ m ≤ 12 ∧ 1 ≤ d ∧ d ≤ daysInMonth leap m

/-- Modelled from the spec: the Kharif band, June 1 to October 31, which for
valid dates is exactly the months June through October. -/
def kharif_band (m : ℕ) : Prop := 6 ≤ m ∧ m ≤ 10

/-- Modelled from the spec: the Rabi band, November 1 to March 31, wrapping the
year boundary, which for valid dates is the months November through March. -/
def rabi_band (m : ℕ) : Prop := 11 ≤ m ∨ m ≤ 3

/-- Modelled from the spec: the Zaid band, April 1 to May 31. -/
def zaid_band (m : ℕ) : Prop := m = 4 ∨ m = 5

/-- Embeds `get_season_water_adjustment` of `src/utils/seasons.py`:
Kharif 0.85, Rabi 0.95, Zaid 1.10, any other season 1.0. -/
def get_season_water_adjustment (season : String) (base_requirement : ℚ) : ℚ :=
  base_requirement *
    (if season = "Kharif" then 85 / 100
     else if season = "Rabi" then 95 / 100
     else if season = "Zaid" then 110 / 100
     else 1)

/-- The `water_ratio` computation of `calculate_water_score` in
`src/recommendation/recommender.py`: available over adjusted requirement when
the adjusted requirement is positive, else 1. -/
def water_frac (adjusted_requirement water_avail : ℚ) : ℚ :=
  if 0 < adjusted_requirement then water_avail / adjusted_requirement else 1

/-- The banded lookup at the end of `calculate_water_score` in
`src/recommendation/recommender.py`, keyed on the drought tolerance. -/
def water_score_levels (drought_tolerance : String) (r : ℚ) : ℚ :=
  if 1 ≤ r then 100
  else if 8 / 10 ≤ r then
    (if drought_tolerance = "High" then 90
     else if drought_tolerance = "Moderate" then 75
     else 60)
  else if 6 / 10 ≤ r then
    (if drought_tolerance = "High" then 75
     else if drought_tolerance = "Moderate" then 50
     else 30)
  else
    (if drought_tolerance = "High" then 50 else 0)

/-- Embeds `calculate_water_score` of `src/recommendation/recommender.py`:
season-adjusted requirement, +50mm irrigation buffer when available, guarded
ratio, then the tolerance-banded score. -/
def calculate_water_score (crop : CropInfo) (expected_rainfall : ℚ)
    (irrigation_available : Bool) (season : String) : ℚ :=
  water_score_levels crop.drought_tolerance
    (water_frac (get_season_water_adjustment season (crop.water_requirement_mm : ℚ))
      (expected_rainfall + (if irrigation_available then 50 else 0)))

/-- Embeds `calculate_temperature_score` of `src/recommendation/recommender.py`. -/
def calculate_temperature_score (crop : CropInfo) (avg_temp : ℚ) : ℚ :=
  if crop.temp_optimal_min ≤ avg_temp ∧ avg_temp ≤ crop.temp_optimal_max then 100
  else if crop.temp_min ≤ avg_temp ∧ avg_temp ≤ crop.temp_max then
    (if avg_temp < crop.temp_optimal_min then
       (if 0 < crop.temp_optimal_min - crop.temp_min then
          100 - ((crop.temp_optimal_min - avg_temp)
                  / (crop.temp_optimal_min - crop.temp_min)) * 40
        else 60)
     else
       (if 0 < crop.temp_max - crop.temp_optimal_max then
          100 - ((avg_temp - crop.temp_optimal_max)
                  / (crop.temp_max - crop.temp_optimal_max)) * 40
        else 60))
  else 0

/-- Embeds `calculate_drought_tolerance_score` of
`src/recommendation/recommender.py`. -/
def calculate_drought_tolerance_score (crop : CropInfo) (max_dry_spell : Int) : ℚ :=
  if max_dry_spell ≤ 4 then 100
  else if max_dry_spell ≤ 7 then
    (if crop.drought_tolerance = "High" then 100
     else if crop.drought_tolerance = "Moderate" then 70
     else 40)
  else
    (if crop.drought_tolerance = "High" then 80
     else if crop.drought_tolerance = "Moderate" then 40
     else 0)

/-- Embeds `calculate_suitability_score` of `src/recommendation/recommender.py`:
the weighted sum of the six component scores, capped at 100. -/
def calculate_suitability_score (crop : CropInfo) (avg_temp expected_rainfall : ℚ)
    (max_dry_spell : Int) (season : String) (region_id : Option String)
    (soil : Option SoilInfo) (irrigation_available : Bool) : ℚ :=
  min
    (calculate_temperature_score crop avg_temp * (25 / 100)
      + calculate_water_score crop expected_rainfall irrigation_available season * (25 / 100)
      + (match soil with
         | some s => calculate_soil_compatibility_score crop s
         | none => 70) * (15 / 100)
      + (match region_id with
         | some r => ((crop.regional_suitability.lookup r).getD (1 / 2)) * 100
         | none => 50) * (15 / 100)
      + (if crop.seasons.contains season then (100 : ℚ) else 50) * (10 / 100)
      + calculate_drought_tolerance_score crop max_dry_spell * (10 / 100))
    100

/-- The `risks` list built by `determine_risk_level` of
`src/recommendation/recommender.py`: an optional drought-risk phrase followed
by an optional water-deficit phrase. -/
def risk_list (crop : CropInfo) (max_dry_spell : Int) (water_available : ℚ) : List String :=
  (if 7 < max_dry_spell then
     (if crop.drought_tolerance = "Low" then [ "High drought risk" ]
      else if crop.drought_tolerance = "Moderate" then [ "Moderate drought risk" ]
      else [])
   else [])
  ++ (if (if 0 < crop.water_requirement_mm
          then water_available / (crop.water_requirement_mm : ℚ) else 1) < 8 / 10
      then [ "Water deficit risk" ] else [])

/-- Embeds `determine_risk_level` of `src/recommendation/recommender.py`. -/
def determine_risk_level (crop : CropInfo) (max_dry_spell : Int) (water_available : ℚ) : String :=
  match risk_list crop max_dry_spell water_available with
  | [] => "Low risk"
  | [r] => r
  | rs => "Multiple risks: " ++ String.intercalate ", " rs

/-- Embeds `CropInfo.is_suitable_for_region` of `src/crops/models.py`. -/
def is_suitable_for_region (crop : CropInfo) (region_id : String) (threshold : ℚ) : Bool :=
  crop.successful_regions.contains region_id ||
    decide (threshold ≤ (crop.regional_suitability.lookup region_id).getD 0)

/-- Python's builtin `round` restricted to integer results: round half to even. -/
def round_half_even (x : ℚ) : Int :=
  if x - (⌊x⌋ : ℚ) < 1 / 2 then ⌊x⌋
  else if 1 / 2 < x - (⌊x⌋ : ℚ) then ⌊x⌋ + 1
  else if ⌊x⌋ % 2 = 0 then ⌊x⌋ else ⌊x⌋ + 1

/-- Python's `round(x, nd)` on exact values. -/
def py_round (x : ℚ) (nd : ℕ) : ℚ :=
  (round_half_even (x * 10 ^ nd) : ℚ) / 10 ^ nd

/-- The expected-rainfall computation at the top of `recommend_crops` in
`src/recommendation/recommender.py`: the mean daily rainfall with the
climatological floor of 1.5mm applied below 0.5mm, times the planning days. -/
def expected_rainfall_total (avg_daily_rain : ℚ) (planning_days : Int) : ℚ :=
  (if avg_daily_rain < 1 / 2 then 3 / 2 else avg_daily_rain) * (planning_days : ℚ)

/-- One output record of `recommend_crops` in
`src/recommendation/recommender.py`. -/
structure Recommendation where
  crop : String
  crop_id : String
  suitability_score : ℚ
  expected_rainfall_mm : ℚ
  water_required_mm : Int
  irrigation_needed_mm : ℚ
  growth_duration_days : Int
  risk_note : String
  drought_tolerance : String
  regional_suitability : ℚ
deriving DecidableEq

/-- Embeds `recommend_crops` of `src/recommendation/recommender.py`.  The crop
catalog (the global `crop_db`) is passed as the list `db`, and the weather
statistics that the source aggregates from its dataframe (mean of `temp_avg`,
mean of `rainfall`, max of `dry_spell_days`) are taken as inputs. -/
def recommend_crops (db : List CropInfo) (avg_temp avg_daily_rain : ℚ)
    (max_dry_spell : Int) (season : String) (region_id : Option String)
    (soil : Option SoilInfo) (irrigation_available : Bool) (planning_days : Int) :
    List Recommendation :=
  let expected_rainfall := expected_rainfall_total avg_daily_rain planning_days
  let season_crops := db.filter fun c => c.seasons.contains season
  let region_crops :=
    match region_id with
    | some r => season_crops.filter fun c => is_suitable_for_region c r (1 / 2)
    | none => season_crops
  let soil_crops :=
    match soil with
    | some s => filter_by_soil region_crops s 40
    | none => region_crops
  let recs := soil_crops.map fun crop =>
    { crop := crop.common_name
      crop_id := crop.crop_id
      suitability_score := py_round (calculate_suitability_score crop avg_temp
        expected_rainfall max_dry_spell season region_id soil irrigation_available) 2
      expected_rainfall_mm := py_round expected_rainfall 1
      water_required_mm := crop.water_requirement_mm
      irrigation_needed_mm :=
        py_round (max 0 ((crop.water_requirement_mm : ℚ) - expected_rainfall)) 1
      growth_duration_days := crop.duration_days
      risk_note := determine_risk_level crop max_dry_spell
        (expected_rainfall + (if irrigation_available then 50 else 0))
      drought_tolerance := crop.drought_tolerance
      regional_suitability :=
        match region_id with
        | some r => (crop.regional_suitability.lookup r).getD (1 / 2)
        | none => 1 / 2 : Recommendation }
  recs.mergeSort fun a b => decide (b.suitability_score ≤ a.suitability_score)

/-- The dry-day flags of `add_agri_features` in `src/preprocessing/features.py`:
`dry_day = rainfall < 2`. -/
def dry_flags (rainfall : List ℚ) : List Bool :=
  rainfall.map fun r => decide (r < 2)

/-- The pandas computation of `dry_spell_days` in
`src/preprocessing/features.py`: the flags are grouped at each flip of the
flag, and the integer-cast flag is cumulatively summed within each group.
The running state carries the previous flag and the running group sum. -/
def dry_cumsum_aux : Option Bool → ℕ → List Bool → List ℕ
  | _, _, [] => []
  | prev, acc, f :: rest =>
      let a := if prev = some f then acc + (if f then 1 else 0) else (if f then 1 else 0)
      a :: dry_cumsum_aux (some f) a rest

/-- The `dry_spell_days` column derived from a daily rainfall sequence. -/
def dry_spell_days (rainfall : List ℚ) : List ℕ :=
  dry_cumsum_aux none 0 (dry_flags rainfall)

/-- Modelled from the spec: the run length of the current same-valued dry-day
flag ending at each position, resetting to 1 at each flag flip and growing by 1
for each additional day with the same flag. -/
def run_length_aux : Option Bool → ℕ → List Bool → List ℕ
  | _, _, [] => []
  | prev, len, f :: rest =>
      let l := if prev = some f then len + 1 else 1
      l :: run_length_aux (some f) l rest

/-- Modelled from the spec: the claimed `dry_spell_days` column, the same-flag
run length at every position. -/
def claimed_dry_spell (rainfall : List ℚ) : List ℕ :=
  run_length_aux none 0 (dry_flags rainfall)

/-- The crop `BAJRA_01` of the catalog `CROPS_DATA` in `src/crops/crop_db.py`. -/
def bajra : CropInfo :=
  { crop_id := "BAJRA_01"
    common_name := "Bajra (Pearl Millet)"
    duration_days := 75
    temp_min := 20
    temp_optimal_min := 25
    temp_optimal_max := 35
    temp_max := 42
    water_requirement_mm := 400
    drought_tolerance := "High"
    waterlogging_tolerance := "Low"
    soil_ph_min := 6
    soil_ph_max := 8
    suitable_soil_textures := [ "Sandy", "Sandy-Loam", "Loam" ]
    regional_suitability :=
      [ ( "PUNE", 85 / 100 ), ( "SOLAPUR", 90 / 100 ), ( "NASHIK", 80 / 100 ),
        ( "AHMEDNAGAR", 85 / 100 ), ( "AURANGABAD", 88 / 100 ), ( "JALGAON", 75 / 100 ),
        ( "SANGLI", 82 / 100 ), ( "KOLHAPUR", 70 / 100 ), ( "SATARA", 78 / 100 ),
        ( "LATUR", 90 / 100 ) ]
    successful_regions := [ "SOLAPUR", "AURANGABAD", "LATUR", "AHMEDNAGAR" ]
    seasons := [ "Kharif" ] }

/-- A clay soil with pH 9 and poor drainage: every field is a valid
`SoilProfile` value per the specification. -/
def soil_clay9 : SoilInfo :=
  { texture := "Clay", ph := 9, organic_matter := "Low", drainage := some "Poor" }

/-- A valid crop profile (ordered temperature band, ordered pH band, regional
suitability in [0,1]) used to exercise `calculate_suitability_score`. -/
def crop_neg : CropInfo :=
  { crop_id := "TEST_NEG"
    common_name := "Test crop"
    duration_days := 80
    temp_min := 20
    temp_optimal_min := 25
    temp_optimal_max := 30
    temp_max := 35
    water_requirement_mm := 400
    drought_tolerance := "Low"
    waterlogging_tolerance := "Low"
    soil_ph_min := 6
    soil_ph_max := 7
    suitable_soil_textures := [ "Sandy" ]
    regional_suitability := [ ( "R", 0 ) ]
    successful_regions := []
    seasons := [ "Kharif" ] }

/-- A valid crop profile whose water requirement is zero. -/
def crop_zero : CropInfo :=
  { crop_id := "TEST_ZERO"
    common_name := "Zero water crop"
    duration_days := 80
    temp_min := 20
    temp_optimal_min := 25
    temp_optimal_max := 30
    temp_max := 35
    water_requirement_mm := 0
    drought_tolerance := "Moderate"
    waterlogging_tolerance := "Low"
    soil_ph_min := 6
    soil_ph_max := 7
    suitable_soil_textures := [ "Sandy" ]
    regional_suitability := []
    successful_regions := []
    seasons := [ "Kharif" ] }

/-- The single recommendation that `recommend_crops` emits for a catalog of
just BAJRA_01 with mean temperature 27, mean daily rainfall 2mm, a 3-day dry
spell, Kharif season, no region, no soil, irrigation available and a 90-day
horizon. -/
def bajra_rec : Recommendation :=
  { crop := "Bajra (Pearl Millet)"
    crop_id := "BAJRA_01"
    suitability_score := 327 / 4
    expected_rainfall_mm := 180
    water_required_mm := 400
    irrigation_needed_mm := 220
    growth_duration_days := 75
    risk_note := "Water deficit risk"
    drought_tolerance := "High"
    regional_suitability := 1 / 2 }

theorem ph_score_cases (crop : CropInfo) (ph : ℚ) :
    calculate_ph_score crop ph = 0 ∨ calculate_ph_score crop ph = 70 ∨
      calculate_ph_score crop ph = 100 := by
  unfold calculate_ph_score
  split_ifs <;> simp

theorem texture_bonus_cases (crop : CropInfo) (texture : String) :
    calculate_texture_bonus crop texture = -50 ∨ calculate_texture_bonus crop texture = 0 ∨
      calculate_texture_bonus crop texture = 20 := by
  unfold calculate_texture_bonus
  split_ifs <;> simp

theorem drainage_bonus_cases (crop : CropInfo) (soil : SoilInfo) :
    calculate_drainage_bonus crop soil = 0 ∨ calculate_drainage_bonus crop soil = 5 ∨
      calculate_drainage_bonus crop soil = 8 ∨ calculate_drainage_bonus crop soil = 10 := by
  unfold calculate_drainage_bonus
  cases soil.drainage with
  | none => simp
  | some d => simp only [] ; split_ifs <;> simp

/-- No reachable soil compatibility score lies in the interval [40, 50). -/
theorem soil_score_gap (crop : CropInfo) (soil : SoilInfo) :
    calculate_soil_compatibility_score crop soil < 40 ∨
      50 ≤ calculate_soil_compatibility_score crop soil := by
  unfold calculate_soil_compatibility_score
  rcases ph_score_cases crop soil.ph with hp | hp | hp <;>
    rcases texture_bonus_cases crop soil.texture with ht | ht | ht <;>
      rcases drainage_bonus_cases crop soil with hd | hd | hd | hd <;>
        rw [hp, ht, hd] <;> norm_num [min_def]

/-- Claim C2: the soil compatibility score is NOT always in [0,100]: for the
catalog crop BAJRA_01 and the valid soil profile (Clay, pH 9, poor drainage)
the code returns -50, contradicting the claim and the function's own
docstring. -/
theorem soil_score_negative_on_bajra_clay :
    calculate_soil_compatibility_score bajra soil_clay9 = -50 := by
  have hp : calculate_ph_score bajra soil_clay9.ph = 0 := by
    norm_num [calculate_ph_score, bajra, soil_clay9]
  have ht : calculate_texture_bonus bajra soil_clay9.texture = -50 := by decide
  have hd : calculate_drainage_bonus bajra soil_clay9 = 0 := by decide
  unfold calculate_soil_compatibility_score
  rw [hp, ht, hd]
  norm_num [min_def]

/-- Claim C1: the suitability score is NOT always in [0,100]: for a valid crop
profile with an incompatible soil texture, out-of-band pH, mismatched season
and region value 0, the code returns -5/2, contradicting the claim and the
function's own docstring. -/
theorem suitability_score_negative_example :
    calculate_suitability_score crop_neg 50 0 8 "Rabi" (some "R") (some soil_clay9) false
      = -(5 / 2) := by
  have hsoil : calculate_soil_compatibility_score crop_neg soil_clay9 = -50 := by
    have hp : calculate_ph_score crop_neg soil_clay9.ph = 0 := by
      norm_num [calculate_ph_score, crop_neg, soil_clay9]
    have ht : calculate_texture_bonus crop_neg soil_clay9.texture = -50 := by decide
    have hd : calculate_drainage_bonus crop_neg soil_clay9 = 0 := by decide
    unfold calculate_soil_compatibility_score
    rw [hp, ht, hd]
    norm_num [min_def]
  have htemp : calculate_temperature_score crop_neg 50 = 0 := by decide
  have hwater : calculate_water_score crop_neg 0 false "Rabi" = 0 := by
    simp [calculate_water_score, water_frac, get_season_water_adjustment,
      water_score_levels, crop_neg]
    norm_num
  have hlook : ((crop_neg.regional_suitability.lookup "R").getD (1 / 2)) = 0 := by decide
  have hseas : "Rabi" ∉ crop_neg.seasons := by decide
  have hdrought : calculate_drought_tolerance_score crop_neg 8 = 0 := by decide
  unfold calculate_suitability_score
  norm_num [htemp, hwater, hsoil, hlook, hseas, hdrought, min_def]

/-- Claim C3: `filter_by_soil` called without an explicit `min_score` keeps
exactly the crops whose soil compatibility score is at least 40: although the
source default is 50, no reachable score lies in [40,50), so the kept set is
exactly the set of crops scoring at least 40. -/
theorem filter_by_soil_default_keeps_ge_40 (crops : List CropInfo) (soil : SoilInfo)
    (crop : CropInfo) :
    crop ∈ filter_by_soil_default crops soil ↔
      crop ∈ crops ∧ 40 ≤ calculate_soil_compatibility_score crop soil := by
  unfold filter_by_soil_default filter_by_soil
  rw [List.mem_filter, decide_eq_true_eq]
  constructor
  · rintro ⟨hm, hs⟩
    exact ⟨hm, by linarith⟩
  · rintro ⟨hm, hs⟩
    refine ⟨hm, ?_⟩
    rcases soil_score_gap crop soil with h | h
    · linarith
    · linarith

theorem daysInMonth_le_31 (leap : Bool) (m : ℕ) : daysInMonth leap m ≤ 31 := by
  unfold daysInMonth
  split_ifs <;> omega

/-- Claim C4: `detect_season` maps every valid calendar date (leap or not) to
exactly one of the Kharif, Rabi and Zaid bands, the bands being mutually
exclusive and jointly exhaustive, and the fallback-to-Kharif branch is never
reached. -/
theorem detect_season_partition (leap : Bool) (m d : ℕ) (r : Option String)
    (h : ValidDate leap m d) :
    ((kharif_band m ∧ ¬ rabi_band m ∧ ¬ zaid_band m ∧ detect_season m d r = "Kharif") ∨
     (¬ kharif_band m ∧ rabi_band m ∧ ¬ zaid_band m ∧ detect_season m d r = "Rabi") ∨
     (¬ kharif_band m ∧ ¬ rabi_band m ∧ zaid_band m ∧ detect_season m d r = "Zaid")) ∧
    ¬ SeasonFallback m d := by
  obtain ⟨h1, h2, h3, h4⟩ := h
  have h31 : d ≤ 31 := le_trans h4 (daysInMonth_le_31 leap m)
  unfold detect_season SeasonFallback kharif_band rabi_band zaid_band
  interval_cases m <;> simp_all

/-- February 29 of a leap year is a valid date classified as Rabi and only
Rabi. -/
theorem detect_season_partition_witness :
    ValidDate true 2 29 ∧
    (((kharif_band 2 ∧ ¬ rabi_band 2 ∧ ¬ zaid_band 2 ∧ detect_season 2 29 none = "Kharif") ∨
      (¬ kharif_band 2 ∧ rabi_band 2 ∧ ¬ zaid_band 2 ∧ detect_season 2 29 none = "Rabi") ∨
      (¬ kharif_band 2 ∧ ¬ rabi_band 2 ∧ zaid_band 2 ∧ detect_season 2 29 none = "Zaid")) ∧
     ¬ SeasonFallback 2 29) :=
  ⟨by constructor <;> norm_num [daysInMonth],
   detect_season_partition true 2 29 none (by constructor <;> norm_num [daysInMonth])⟩

/-- Claim C10: the optional region identifier has no effect on the season
classified by `detect_season`. -/
theorem detect_season_region_independent (m d : ℕ) (r1 r2 : Option String) :
    detect_season m d r1 = detect_season m d r2 := rfl

theorem water_score_levels_mono (tol : String) {x y : ℚ} (h : x ≤ y) :
    water_score_levels tol x ≤ water_score_levels tol y := by
  unfold water_score_levels
  split_ifs <;> linarith

/-- Claim C5: increasing the expected rainfall, all else fixed, never
decreases the water sub-score. -/
theorem water_score_monotone (crop : CropInfo) (irr : Bool) (season : String)
    (r1 r2 : ℚ) (h : r1 ≤ r2) :
    calculate_water_score crop r1 irr season ≤ calculate_water_score crop r2 irr season := by
  unfold calculate_water_score
  apply water_score_levels_mono
  unfold water_frac
  split_ifs <;>
    first
      | exact le_refl 1
      | exact div_le_div_of_nonneg_right (by linarith) (by linarith)

/-- The water-score monotonicity instantiated at BAJRA_01 with rainfall
100mm versus 400mm. -/
theorem water_score_monotone_witness :
    (100 : ℚ) ≤ 400 ∧
      calculate_water_score bajra 100 false "Kharif" ≤
        calculate_water_score bajra 400 false "Kharif" :=
  ⟨by norm_num, water_score_monotone bajra false "Kharif" 100 400 (by norm_num)⟩

/-- Claim C6: for a crop whose tolerance band is ordered, the temperature
score is 100 on the optimal band, decays linearly by up to 40 points across
each outer sub-band of the tolerance band (60 when that sub-band has zero
width), and is 0 outside the tolerance band. -/
theorem temperature_score_characterization (crop : CropInfo) (t : ℚ)
    (h1 : crop.temp_min ≤ crop.temp_optimal_min)
    (h2 : crop.temp_optimal_min ≤ crop.temp_optimal_max)
    (h3 : crop.temp_optimal_max ≤ crop.temp_max) :
    (crop.temp_optimal_min ≤ t ∧ t ≤ crop.temp_optimal_max →
      calculate_temperature_score crop t = 100) ∧
    (crop.temp_min ≤ t ∧ t < crop.temp_optimal_min →
      calculate_temperature_score crop t =
        (if 0 < crop.temp_optimal_min - crop.temp_min then
          100 - ((crop.temp_optimal_min - t)
                  / (crop.temp_optimal_min - crop.temp_min)) * 40
         else 60)) ∧
    (crop.temp_optimal_max < t ∧ t ≤ crop.temp_max →
      calculate_temperature_score crop t =
        (if 0 < crop.temp_max - crop.temp_optimal_max then
          100 - ((t - crop.temp_optimal_max)
                  / (crop.temp_max - crop.temp_optimal_max)) * 40
         else 60)) ∧
    (t < crop.temp_min ∨ crop.temp_max < t →
      calculate_temperature_score crop t = 0) := by
  unfold calculate_temperature_score
  refine ⟨fun h => ?_, fun h => ?_, fun h => ?_, fun h => ?_⟩
  · rw [if_pos h]
  · have hnot : ¬ (crop.temp_optimal_min ≤ t ∧ t ≤ crop.temp_optimal_max) :=
      fun hc => absurd hc.1 (not_le.mpr h.2)
    have hin : crop.temp_min ≤ t ∧ t ≤ crop.temp_max := ⟨h.1, by linarith [h.2]⟩
    rw [if_neg hnot, if_pos hin, if_pos h.2]
  · have hnot : ¬ (crop.temp_optimal_min ≤ t ∧ t ≤ crop.temp_optimal_max) :=
      fun hc => absurd hc.2 (not_le.mpr h.1)
    have hin : crop.temp_min ≤ t ∧ t ≤ crop.temp_max := ⟨by linarith [h.1], h.2⟩
    have hnlt : ¬ t < crop.temp_optimal_min := not_lt.mpr (by linarith [h.1])
    rw [if_neg hnot, if_pos hin, if_neg hnlt]
  · have hnot1 : ¬ (crop.temp_optimal_min ≤ t ∧ t ≤ crop.temp_optimal_max) := by
      rcases h with h | h
      · exact fun hc => by linarith [hc.1]
      · exact fun hc => by linarith [hc.2]
    have hnot2 : ¬ (crop.temp_min ≤ t ∧ t ≤ crop.temp_max) := by
      rcases h with h | h
      · exact fun hc => by linarith [hc.1]
      · exact fun hc => by linarith [hc.2]
    rw [if_neg hnot1, if_neg hnot2]

/-- The temperature characterization instantiated at BAJRA_01 and 22 degrees,
inside the lower decay sub-band. -/
theorem temperature_score_characterization_witness :
    bajra.temp_min ≤ bajra.temp_optimal_min ∧
    ((bajra.temp_optimal_min ≤ (22 : ℚ) ∧ (22 : ℚ) ≤ bajra.temp_optimal_max →
        calculate_temperature_score bajra 22 = 100) ∧
     (bajra.temp_min ≤ (22 : ℚ) ∧ (22 : ℚ) < bajra.temp_optimal_min →
        calculate_temperature_score bajra 22 =
          (if 0 < bajra.temp_optimal_min - bajra.temp_min then
            100 - ((bajra.temp_optimal_min - 22)
                    / (bajra.temp_optimal_min - bajra.temp_min)) * 40
           else 60)) ∧
     (bajra.temp_optimal_max < (22 : ℚ) ∧ (22 : ℚ) ≤ bajra.temp_max →
        calculate_temperature_score bajra 22 =
          (if 0 < bajra.temp_max - bajra.temp_optimal_max then
            100 - ((22 - bajra.temp_optimal_max)
                    / (bajra.temp_max - bajra.temp_optimal_max)) * 40
           else 60)) ∧
     ((22 : ℚ) < bajra.temp_min ∨ bajra.temp_max < (22 : ℚ) →
        calculate_temperature_score bajra 22 = 0)) :=
  ⟨by norm_num [bajra],
   temperature_score_characterization bajra 22 (by norm_num [bajra])
     (by norm_num [bajra]) (by norm_num [bajra])⟩

/-- Claim C7, counterexample: the `dry_spell_days` column is not the
run length of the current same-valued flag run. For rainfall [0, 5] the flag
flips on day two, the claimed reset-to-1 rule gives run lengths [1, 1], but
the code produces [1, 0]. -/
theorem dry_spell_days_not_run_length :
    dry_spell_days [0, 5] = [1, 0] ∧ claimed_dry_spell [0, 5] = [1, 1] ∧
      dry_spell_days [0, 5] ≠ claimed_dry_spell [0, 5] := by
  refine ⟨?_, ?_, ?_⟩ <;> decide

theorem dry_cumsum_aux_eq_run_length (fs : List Bool) :
    ∀ (p : Option Bool) (acc len : ℕ), (∀ b, p = some b → acc = if b then len else 0) →
      dry_cumsum_aux p acc fs =
        List.zipWith (fun f n => if f then n else 0) fs (run_length_aux p len fs) := by
  induction fs with
  | nil => intro p acc len _ ; rfl
  | cons f rest ih =>
      intro p acc len hinv
      by_cases hp : p = some f
      · have hacc : acc = if f then len else 0 := hinv f hp
        cases f
        · have hih := ih (some false) 0 (len + 1) (by intro b hb; cases hb; rfl)
          simp [dry_cumsum_aux, run_length_aux, hp, hacc, hih]
        · have hih := ih (some true) (len + 1) (len + 1) (by intro b hb; cases hb; rfl)
          simp [dry_cumsum_aux, run_length_aux, hp, hacc, hih]
      · cases f
        · have hih := ih (some false) 0 1 (by intro b hb; cases hb; rfl)
          simp [dry_cumsum_aux, run_length_aux, hp, hih]
        · have hih := ih (some true) 1 1 (by intro b hb; cases hb; rfl)
          simp [dry_cumsum_aux, run_length_aux, hp, hih]

/-- Claim C7, amended: at every dry position, `dry_spell_days` equals the
length of the current dry run, resetting to 1 on the first dry day after a wet
day and growing by 1 per additional consecutive dry day; at every wet position
it equals 0 instead of the wet run length. -/
theorem dry_spell_days_run_length_on_dry (rainfall : List ℚ) :
    dry_spell_days rainfall =
      List.zipWith (fun f n => if f then n else 0) (dry_flags rainfall)
        (claimed_dry_spell rainfall) := by
  unfold dry_spell_days claimed_dry_spell
  exact dry_cumsum_aux_eq_run_length (dry_flags rainfall) none 0 0 (by intro b hb; cases hb)

/-- Claim C9: a zero or negative (season-adjusted) water requirement never
divides: the guarded ratio is taken as 1, the water score is 100, and
`determine_risk_level` raises no water-deficit flag for a crop whose water
requirement is not positive. -/
theorem zero_requirement_guards :
    (∀ (crop : CropInfo) (expected_rainfall : ℚ) (irr : Bool) (season : String),
      get_season_water_adjustment season (crop.water_requirement_mm : ℚ) ≤ 0 →
        calculate_water_score crop expected_rainfall irr season = 100) ∧
    (∀ (crop : CropInfo) (max_dry_spell : Int) (water_avail : ℚ),
      crop.water_requirement_mm ≤ 0 →
        "Water deficit risk" ∉ risk_list crop max_dry_spell water_avail ∧
        determine_risk_level crop max_dry_spell water_avail =
          (if 7 < max_dry_spell ∧ crop.drought_tolerance = "Low" then "High drought risk"
           else if 7 < max_dry_spell ∧ crop.drought_tolerance = "Moderate" then
             "Moderate drought risk"
           else "Low risk")) := by
  constructor
  · intro crop expected_rainfall irr season hadj
    unfold calculate_water_score water_frac water_score_levels
    rw [if_neg (not_lt.mpr hadj)]
    norm_num
  · intro crop max_dry_spell water_avail hreq
    have hfrac :
        (if 0 < crop.water_requirement_mm
          then water_avail / (crop.water_requirement_mm : ℚ) else 1) = 1 :=
      if_neg (not_lt.mpr hreq)
    have hlist : risk_list crop max_dry_spell water_avail =
        (if 7 < max_dry_spell then
          (if crop.drought_tolerance = "Low" then [ "High drought risk" ]
           else if crop.drought_tolerance = "Moderate" then [ "Moderate drought risk" ]
           else [])
         else []) := by
      unfold risk_list
      rw [hfrac]
      norm_num
    constructor
    · rw [hlist]
      split_ifs <;> simp
    · unfold determine_risk_level
      rw [hlist]
      split_ifs with ha hb hc <;> simp_all

/-- The zero-requirement guards instantiated at a crop with water requirement
0, Moderate drought tolerance and a 9-day dry spell. -/
theorem zero_requirement_guards_witness :
    (get_season_water_adjustment "Kharif" ((crop_zero.water_requirement_mm : ℚ)) ≤ 0 ∧
      calculate_water_score crop_zero 10 false "Kharif" = 100) ∧
    (crop_zero.water_requirement_mm ≤ 0 ∧
      ("Water deficit risk" ∉ risk_list crop_zero 9 5 ∧
        determine_risk_level crop_zero 9 5 =
          (if 7 < (9 : Int) ∧ crop_zero.drought_tolerance = "Low" then "High drought risk"
           else if 7 < (9 : Int) ∧ crop_zero.drought_tolerance = "Moderate" then
             "Moderate drought risk"
           else "Low risk"))) :=
  ⟨⟨by norm_num [get_season_water_adjustment, crop_zero],
    zero_requirement_guards.1 crop_zero 10 false "Kharif"
      (by norm_num [get_season_water_adjustment, crop_zero])⟩,
   ⟨by norm_num [crop_zero],
    zero_requirement_guards.2 crop_zero 9 5 (by norm_num [crop_zero])⟩⟩

/-- Claim C8: every recommendation emitted by `recommend_crops` reports the
irrigation shortfall as (the one-decimal rounding of) max(0, water requirement
minus expected rainfall); the +50mm irrigation buffer is excluded from this
figure for every value of the irrigation flag, unlike in the water sub-score. -/
theorem recommend_crops_shortfall (db : List CropInfo) (avg_temp avg_daily_rain : ℚ)
    (max_dry_spell : Int) (season : String) (region_id : Option String)
    (soil : Option SoilInfo) (irrigation_available : Bool) (planning_days : Int)
    (rec : Recommendation)
    (h : rec ∈ recommend_crops db avg_temp avg_daily_rain max_dry_spell season
          region_id soil irrigation_available planning_days) :
    rec.irrigation_needed_mm =
      py_round (max 0 ((rec.water_required_mm : ℚ)
        - expected_rainfall_total avg_daily_rain planning_days)) 1 := by
  simp only [recommend_crops, List.mem_mergeSort, List.mem_map] at h
  obtain ⟨crop, hc, hrec⟩ := h
  subst hrec
  rfl

/-- The shortfall law instantiated on the catalog containing only BAJRA_01:
the emitted record reports 220 = max(0, 400 - 180) with the buffer excluded. -/
theorem recommend_crops_shortfall_witness :
    bajra_rec.irrigation_needed_mm =
      py_round (max 0 ((bajra_rec.water_required_mm : ℚ)
        - expected_rainfall_total 2 90)) 1 :=
  recommend_crops_shortfall [bajra] 27 2 3 "Kharif" none none true 90 bajra_rec
    (by
      have hexp : expected_rainfall_total 2 90 = 180 := by
        norm_num [expected_rainfall_total]
      have htemp : calculate_temperature_score bajra 27 = 100 := by decide
      have hwater : calculate_water_score bajra 180 true "Kharif" = 75 := by
        simp [calculate_water_score, water_frac, get_season_water_adjustment,
          water_score_levels, bajra]
        norm_num
      have hscore : calculate_suitability_score bajra 27 180 3 "Kharif" none none true
          = 327 / 4 := by
        unfold calculate_suitability_score
        rw [htemp, hwater]
        norm_num [bajra, calculate_drought_tolerance_score, min_def]
      have hrisk : determine_risk_level bajra 3 230 = "Water deficit risk" := by
        simp [determine_risk_level, risk_list, bajra]
        norm_num
      simp only [recommend_crops, List.mem_mergeSort, List.mem_map]
      refine ⟨bajra, List.mem_filter.mpr ⟨List.mem_singleton_self bajra, by decide⟩, ?_⟩
      rw [hexp]
      norm_num [hscore, hrisk]
      simp [bajra_rec, bajra, py_round, round_half_even, max_def, min_def]
      norm_num)

end AgriCrop
